import Mathlib

/-!
Verification of the reconciliation core of the unified game launcher.

The definitions below are a shallow embedding of the Python sources:
`src/core/game_manager.py` and `src/core/library.py` (current tree), and
`src/core/auth.py` (depreciated tree).  Python dictionaries are modelled as
insertion-ordered association lists (`List (K × V)`): assignment to a key
replaces the value at the position of the first occurrence of the key and
appends a fresh entry at the end otherwise, exactly as CPython dictionaries
behave.  Paths are modelled as strings, `datetime` values as integers.
-/

set_option autoImplicit false

/-- The `Platform` enum of `game_manager.py`. -/
inductive Platform where
  | STEAM
  | EPIC
  | XBOX
  | PLAYSTATION
  | GOG
deriving DecidableEq, Repr

/-- Lookup in an insertion-ordered dictionary: value at the first occurrence of the key. -/
def lookupD {K V : Type} [DecidableEq K] : List (K × V) → K → Option V
  | [], _ => none
  | (k, v) :: rest, k0 => if k = k0 then some v else lookupD rest k0

/-- Assignment `d[k] = v` on an insertion-ordered dictionary: replace the value at the
first occurrence of `k`, keeping its position, or append `(k, v)` when `k` is absent. -/
def updateD {K V : Type} [DecidableEq K] : List (K × V) → K → V → List (K × V)
  | [], k0, v0 => [(k0, v0)]
  | (k, v) :: rest, k0, v0 => if k = k0 then (k, v0) :: rest else (k, v) :: updateD rest k0 v0

/-- The `GameInstallation` dataclass of `game_manager.py`. -/
structure GameInstallation where
  platform : Platform
  install_path : String
  executable_path : String
  app_id : String
  version : String
  size : Int
deriving DecidableEq, Repr

/-- The `GameInfo` class of `game_manager.py`: bindings (`platforms`), installations and
the active-platform pointer. -/
structure GameInfo where
  name : String
  platforms : List (Platform × String)
  installations : List (Platform × GameInstallation)
  active_platform : Option Platform
deriving DecidableEq, Repr

/-- The `games` registry of `GameManager`, a dictionary keyed by game name. -/
abbrev Games := List (String × GameInfo)

/-- One item of an adapter scan result, as consumed by `_process_installation`.
Keys read with `game_data.get` are optional; `app_id`, `install_dir` and `launch_exe`
are read by indexing and are modelled as present. -/
structure GameData where
  name : Option String
  app_name : Option String
  app_id : String
  install_dir : String
  launch_exe : String
  version : Option String
  size_on_disk : Option Int
deriving DecidableEq, Repr

/-- The name derivation of `_process_installation`:
`game_name = game_data.get(\x7bname\x7d) or game_data.get(\x7bapp_name\x7d)` followed by
`if not game_name: return`.  Python treats `None` and the empty string as falsy. -/
def deriveName (d : GameData) : Option String :=
  let n := match d.name with
    | some s => if s = "" then d.app_name else some s
    | none => d.app_name
  match n with
  | some s => if s = "" then none else some s
  | none => none

/-- The executable-path computation of `_process_installation`: the install directory,
joined with `launch_exe` on EPIC and with `<game name>.exe` on STEAM. -/
def exePathFor (platform : Platform) (game_name : String) (d : GameData) : String :=
  if platform = Platform.EPIC then d.install_dir ++ "/" ++ d.launch_exe
  else if platform = Platform.STEAM then d.install_dir ++ "/" ++ game_name ++ ".exe"
  else d.install_dir

/-- The `GameInstallation` value built by `_process_installation` for one sighting. -/
def mkInstallation (platform : Platform) (game_name : String) (d : GameData) :
    GameInstallation :=
  { platform := platform
    install_path := d.install_dir
    executable_path := exePathFor platform game_name d
    app_id := d.app_id
    version := d.version.getD "1.0"
    size := d.size_on_disk.getD 0 }

/-- `GameManager._process_installation`: derive the display name; create the `GameInfo`
or overwrite the binding for this platform; then store the freshly built installation via
`GameInfo.add_installation`, which also sets the active platform when it is unset. -/
def process_installation (games : Games) (platform : Platform) (d : GameData) : Games :=
  match deriveName d with
  | none => games
  | some game_name =>
    let games1 :=
      match lookupD games game_name with
      | none =>
        updateD games game_name
          { name := game_name, platforms := [(platform, d.app_id)],
            installations := [], active_platform := none }
      | some gi =>
        updateD games game_name
          { gi with platforms := updateD gi.platforms platform d.app_id }
    let inst := mkInstallation platform game_name d
    match lookupD games1 game_name with
    | none => games1
    | some gi =>
      updateD games1 game_name
        { gi with
          installations := updateD gi.installations platform inst
          active_platform :=
            match gi.active_platform with
            | none => some platform
            | some q => some q }

/-- `GameManager.set_active_platform`: returns the new registry and the boolean result;
fails, leaving the registry untouched, when the game is unknown or the platform is not
among its bindings. -/
def set_active_platform (games : Games) (game_name : String) (platform : Platform) :
    Games × Bool :=
  match lookupD games game_name with
  | none => (games, false)
  | some gi =>
    if (lookupD gi.platforms platform).isSome then
      (updateD games game_name { gi with active_platform := some platform }, true)
    else (games, false)

/-- One registered platform API as seen by the scan cycle: its platform key and the
outcome of `get_installed_games()` (`none` models a raised exception). -/
structure Adapter where
  platform : Platform
  result : Option (List GameData)
deriving DecidableEq, Repr

/-- `GameManager.scan_installations`: iterate the registered adapters; a raising adapter
is caught and contributes nothing; the items of a successful adapter are processed in
list order. -/
def scan_installations (games : Games) (apis : List Adapter) : Games :=
  apis.foldl
    (fun gs a =>
      match a.result with
      | none => gs
      | some items => items.foldl (fun gs2 it => process_installation gs2 a.platform it) gs)
    games

/-- Presence of a game key in the registry. -/
def hasGame (games : Games) (g : String) : Bool :=
  (lookupD games g).isSome

/-- Presence of a binding for platform `q` on game `g`. -/
def hasBinding (games : Games) (g : String) (q : Platform) : Bool :=
  match lookupD games g with
  | some gi => (lookupD gi.platforms q).isSome
  | none => false

/-- Presence of an installation record for platform `q` on game `g`. -/
def hasInstallation (games : Games) (g : String) (q : Platform) : Bool :=
  match lookupD games g with
  | some gi => (lookupD gi.installations q).isSome
  | none => false

/-- An owned-content set, modelled as a duplicate-free insertion-ordered list. -/
abbrev ContentSet := List String

/-- Python `set.update`: add each id that is not yet a member. -/
def unionS (cur : ContentSet) (ids : List String) : ContentSet :=
  ids.foldl (fun acc x => if x ∈ acc then acc else acc ++ [x]) cur

/-- The `owned_content` map of `UnifiedLibrary`: game name to platform to content ids. -/
abbrev OwnedMap := List (String × List (Platform × ContentSet))

/-- `UnifiedLibrary.register_owned_content`: create the two nesting levels on demand,
then union the given ids into the stored set. -/
def register_owned_content (owned : OwnedMap) (game_name : String) (platform : Platform)
    (content_ids : List String) : OwnedMap :=
  let owned1 := if (lookupD owned game_name).isNone then updateD owned game_name [] else owned
  let plats := (lookupD owned1 game_name).getD []
  let plats1 := if (lookupD plats platform).isNone then updateD plats platform [] else plats
  let cur := (lookupD plats1 platform).getD []
  updateD owned1 game_name (updateD plats1 platform (unionS cur content_ids))

/-- `UnifiedLibrary.get_owned_content`: the stored set for `(game, platform)`, empty when
either level is missing. -/
def get_owned_content (owned : OwnedMap) (game_name : String) (platform : Platform) :
    ContentSet :=
  match lookupD owned game_name with
  | none => []
  | some plats => (lookupD plats platform).getD []

/-- `UnifiedLibrary.get_available_platforms`: the binding keys of the game, in insertion
order, empty for an unknown game. -/
def get_available_platforms (games : Games) (game_name : String) : List Platform :=
  match lookupD games game_name with
  | none => []
  | some gi => gi.platforms.map Prod.fst

/-- `UnifiedLibrary.optimize_storage`: scan the bound platforms in order, keeping the
first platform whose owned-content count strictly exceeds the running maximum, which
starts at 0; fall back to the first bound platform when no update ever happened. -/
def optimize_storage (games : Games) (owned : OwnedMap) (game_name : String) :
    Option Platform :=
  if (lookupD games game_name).isNone then none
  else
    let platforms := get_available_platforms games game_name
    if platforms.isEmpty then none
    else
      let acc := platforms.foldl
        (fun acc platform =>
          let content_count := (get_owned_content owned game_name platform).length
          if content_count > acc.1 then (content_count, some platform) else acc)
        ((0 : Nat), (none : Option Platform))
      match acc.2 with
      | some p => some p
      | none => platforms.head?

/-- Modelled on the words of the specification, for comparison with `optimize_storage`:
the strictly highest owned-content count wins; when no count is positive the first
bound platform is returned, and among ties at a positive maximum the first platform in
binding enumeration order is returned. -/
def recommendPlatformSpec (games : Games) (owned : OwnedMap) (game_name : String) :
    Option Platform :=
  match lookupD games game_name with
  | none => none
  | some gi =>
    match gi.platforms.map Prod.fst with
    | [] => none
    | p0 :: rest =>
      let plats := p0 :: rest
      let cnt : Platform → Nat := fun p => (get_owned_content owned game_name p).length
      let M := plats.foldl (fun a p => max a (cnt p)) 0
      if M = 0 then some p0 else plats.find? (fun p => cnt p == M)

/-- The `PlaformAuth` class of `auth.py`: the per-platform session record.  The expiry
`datetime` is modelled as an integer timestamp. -/
structure PlaformAuth where
  platform : String
  access_token : Option String
  refresh_token : Option String
  token_expires_at : Option Int
  user_id : Option String
deriving DecidableEq, Repr

/-- `PlaformAuth.is_authenticated`, with `datetime.now()` passed explicitly: the access
token must be present, the expiry must be set, and `now` must be before it. -/
def is_authenticated (now : Int) (a : PlaformAuth) : Bool :=
  match a.access_token, a.token_expires_at with
  | some _, some t => decide (now < t)
  | _, _ => false

/-- A platform API instance as registered in `UnifiedAuth.platform_apis`.  The adapter
classes of the repository define `access_token` and `refresh_token` attributes; they
define no `user_id` and no `token_expires_at` attribute.  `refresh_result` is the
outcome of `refresh_auth_token()` and `authenticate_result` that of `authenticate()`,
with `none` modelling a raised exception. -/
structure ApiInstance where
  access_token : Option String
  refresh_token : Option String
  refresh_result : Option Bool
  authenticate_result : Option Bool
deriving DecidableEq, Repr

/-- The in-memory state of `UnifiedAuth`: the session store and the API registry. -/
structure UnifiedAuth where
  platform_auths : List (String × PlaformAuth)
  platform_apis : List (String × ApiInstance)
deriving DecidableEq, Repr

/-- One persisted session entry of the `auth_data.json` snapshot. -/
structure SavedSession where
  access_token : Option String
  refresh_token : Option String
  user_id : Option String
  token_expires_at : Option Int
deriving DecidableEq, Repr

/-- Serialization of one `platform_apis` entry as `save_auth_data` performs it: the
source reads `auth.access_token`, `auth.refresh_token`, `auth.user_id` and
`auth.token_expires_at` on the stored object, but `platform_apis` holds adapter API
instances, which have no `user_id` attribute, so the read raises `AttributeError`. -/
def serializeApiEntry (_api : ApiInstance) : Except String SavedSession :=
  .error "AttributeError: no attribute user_id"

/-- The dictionary comprehension loop of `save_auth_data` over `platform_apis`; the
first raising entry aborts the whole build. -/
def buildAuthData : List (String × ApiInstance) → Except String (List (String × SavedSession))
  | [] => .ok []
  | (p, api) :: rest => do
    let entry ← serializeApiEntry api
    let tail ← buildAuthData rest
    pure ((p, entry) :: tail)

/-- `UnifiedAuth.save_auth_data`: iterates `platform_apis` (not `platform_auths`); any
exception is caught and nothing is written (`none`); otherwise the snapshot is the
serialized `platform_apis` entries. -/
def save_auth_data (s : UnifiedAuth) : Option (List (String × SavedSession)) :=
  match buildAuthData s.platform_apis with
  | .ok data => some data
  | .error _ => none

/-- The loading loop of `UnifiedAuth._load_auth_data`: rebuild `platform_auths` from a
parsed snapshot, entry by entry. -/
def load_auth_data (data : List (String × SavedSession)) : List (String × PlaformAuth) :=
  data.foldl
    (fun auths pd =>
      updateD auths pd.1
        { platform := pd.1
          access_token := pd.2.access_token
          refresh_token := pd.2.refresh_token
          token_expires_at := pd.2.token_expires_at
          user_id := pd.2.user_id })
    []

/-- `UnifiedAuth.register_platform_api`: store the API instance, then create a fresh
session only under the guard `platform not in self.platform_apis`, evaluated after the
insertion on the previous line. -/
def register_platform_api (s : UnifiedAuth) (platform : String) (api : ApiInstance) :
    UnifiedAuth :=
  let s1 := { s with platform_apis := updateD s.platform_apis platform api }
  if (lookupD s1.platform_apis platform).isNone then
    { s1 with
      platform_auths :=
        updateD s1.platform_auths platform
          { platform := platform, access_token := none, refresh_token := none,
            token_expires_at := none, user_id := none } }
  else s1

/-- `UnifiedAuth.refresh_token`: fails when the platform has no API or no session; else
delegates to the API, and on adapter success overwrites the session tokens with the
attributes of the API instance.  The stored refresh token is never consulted. -/
def refresh_token_op (s : UnifiedAuth) (platform : String) : UnifiedAuth × Bool :=
  match lookupD s.platform_apis platform, lookupD s.platform_auths platform with
  | some api, some auth =>
    match api.refresh_result with
    | some true =>
      let auth1 := { auth with
        access_token := api.access_token, refresh_token := api.refresh_token }
      ({ s with platform_auths := updateD s.platform_auths platform auth1 }, true)
    | some false => (s, false)
    | none => (s, false)
  | _, _ => (s, false)

/-- Python call on a value that is a dictionary, as in `self.platform_auths(platform)`:
dictionaries are not callable, so the call raises `TypeError` for every argument. -/
def dictCall {K V : Type} (_d : List (K × V)) (_k : K) : Except String V :=
  .error "TypeError: dict object is not callable"

/-- `UnifiedAuth.get_access_token`: invokes `platform_auths` as a function, then would
return `None` for an authenticated session and the access token otherwise.  The first
step raises, so the rest is unreachable. -/
def get_access_token (now : Int) (s : UnifiedAuth) (platform : String) :
    Except String (Option String) := do
  let auth ← dictCall s.platform_auths platform
  if is_authenticated now auth then pure none
  else pure auth.access_token

/-- Looking up the key just assigned yields the assigned value. -/
theorem lookupD_updateD_self {K V : Type} [DecidableEq K] (l : List (K × V)) (k : K) (v : V) :
    lookupD (updateD l k v) k = some v := by
  induction l with
  | nil => simp [updateD, lookupD]
  | cons hd tl ih =>
    obtain ⟨a, b⟩ := hd
    by_cases h : a = k
    · simp [updateD, lookupD, h]
    · simp [updateD, lookupD, h, ih]

/-- Assignment to one key does not change the lookup of a different key. -/
theorem lookupD_updateD_ne {K V : Type} [DecidableEq K] (l : List (K × V)) (k k2 : K) (v : V)
    (h : k2 ≠ k) : lookupD (updateD l k v) k2 = lookupD l k2 := by
  induction l with
  | nil => simp [updateD, lookupD, Ne.symm h]
  | cons hd tl ih =>
    obtain ⟨a, b⟩ := hd
    by_cases ha : a = k
    · subst ha
      simp [updateD, lookupD, Ne.symm h]
    · by_cases ha2 : a = k2
      · subst ha2
        simp [updateD, lookupD, ha]
      · simp [updateD, lookupD, ha, ha2, ih]

/-- Two successive assignments to the same key collapse to the second one. -/
theorem updateD_updateD {K V : Type} [DecidableEq K] (l : List (K × V)) (k : K) (v v2 : V) :
    updateD (updateD l k v) k v2 = updateD l k v2 := by
  induction l with
  | nil => simp [updateD]
  | cons hd tl ih =>
    obtain ⟨a, b⟩ := hd
    by_cases h : a = k <;> simp [updateD, h, ih]

/-- Assigning to a key the value it already holds leaves the dictionary unchanged. -/
theorem updateD_self {K V : Type} [DecidableEq K] (l : List (K × V)) (k : K) (v : V)
    (h : lookupD l k = some v) : updateD l k v = l := by
  induction l with
  | nil => simp [lookupD] at h
  | cons hd tl ih =>
    obtain ⟨a, b⟩ := hd
    by_cases ha : a = k
    · have hb : b = v := by
        simpa [lookupD, ha] using h
      simp [updateD, ha, hb]
    · have h2 : lookupD tl k = some v := by
        simpa [lookupD, ha] using h
      simp [updateD, ha, ih h2]

/-- Assigning to an absent key appends the new entry at the end. -/
theorem updateD_append {K V : Type} [DecidableEq K] (l : List (K × V)) (k : K) (v : V)
    (h : lookupD l k = none) : updateD l k v = l ++ [(k, v)] := by
  induction l with
  | nil => simp [updateD]
  | cons hd tl ih =>
    obtain ⟨a, b⟩ := hd
    by_cases ha : a = k
    · simp [lookupD, ha] at h
    · have h2 : lookupD tl k = none := by
        simpa [lookupD, ha] using h
      simp [updateD, ha, ih h2]

/-- A sighting whose item yields no display name is ignored. -/
theorem process_name_none (games : Games) (p : Platform) (d : GameData)
    (h : deriveName d = none) : process_installation games p d = games := by
  simp [process_installation, h]

/-- Characterization of `_process_installation` on a name absent from the registry: a
fresh `GameInfo` is appended, carrying one binding, one installation and this platform
as the active one. -/
theorem process_fresh (games : Games) (p : Platform) (d : GameData) (n : String)
    (hn : deriveName d = some n) (h : lookupD games n = none) :
    process_installation games p d =
      updateD games n
        { name := n, platforms := [(p, d.app_id)],
          installations := [(p, mkInstallation p n d)], active_platform := some p } := by
  simp only [process_installation, hn, h, lookupD_updateD_self]
  simp [updateD_updateD, updateD]

/-- Characterization of `_process_installation` on a name already in the registry: the
binding and the installation for this platform are overwritten and the active platform
is set only when it was unset. -/
theorem process_existing (games : Games) (p : Platform) (d : GameData) (n : String)
    (gi : GameInfo) (hn : deriveName d = some n) (h : lookupD games n = some gi) :
    process_installation games p d =
      updateD games n
        { gi with
          platforms := updateD gi.platforms p d.app_id
          installations := updateD gi.installations p (mkInstallation p n d)
          active_platform :=
            match gi.active_platform with
            | none => some p
            | some q => some q } := by
  simp only [process_installation, hn, h, lookupD_updateD_self]
  simp [updateD_updateD]

/-- A sighting never removes a game from the registry. -/
theorem process_preserves_game (games : Games) (p : Platform) (d : GameData) (g : String)
    (h : hasGame games g = true) : hasGame (process_installation games p d) g = true := by
  cases hd : deriveName d with
  | none => rwa [process_name_none games p d hd]
  | some n =>
    cases hg : lookupD games n with
    | none =>
      rw [process_fresh games p d n hd hg]
      by_cases hgn : g = n
      · subst hgn
        simp [hasGame, lookupD_updateD_self]
      · unfold hasGame at h ⊢
        rwa [lookupD_updateD_ne _ _ _ _ hgn]
    | some gi =>
      rw [process_existing games p d n gi hd hg]
      by_cases hgn : g = n
      · subst hgn
        simp [hasGame, lookupD_updateD_self]
      · unfold hasGame at h ⊢
        rwa [lookupD_updateD_ne _ _ _ _ hgn]

/-- A sighting never removes a binding: bindings only grow under ingest. -/
theorem process_preserves_binding (games : Games) (p : Platform) (d : GameData)
    (g : String) (q : Platform) (h : hasBinding games g q = true) :
    hasBinding (process_installation games p d) g q = true := by
  cases hd : deriveName d with
  | none => rwa [process_name_none games p d hd]
  | some n =>
    cases hg : lookupD games n with
    | none =>
      rw [process_fresh games p d n hd hg]
      by_cases hgn : g = n
      · subst hgn
        unfold hasBinding at h
        rw [hg] at h
        exact absurd h (by simp)
      · unfold hasBinding at h ⊢
        rwa [lookupD_updateD_ne _ _ _ _ hgn]
    | some gi =>
      rw [process_existing games p d n gi hd hg]
      by_cases hgn : g = n
      · subst hgn
        unfold hasBinding at h ⊢
        rw [hg] at h
        rw [lookupD_updateD_self]
        by_cases hqp : q = p
        · subst hqp
          simp [lookupD_updateD_self]
        · show (lookupD (updateD gi.platforms p d.app_id) q).isSome = true
          rw [lookupD_updateD_ne _ _ _ _ hqp]
          exact h
      · unfold hasBinding at h ⊢
        rwa [lookupD_updateD_ne _ _ _ _ hgn]

/-- A sighting never removes an installation record. -/
theorem process_preserves_installation (games : Games) (p : Platform) (d : GameData)
    (g : String) (q : Platform) (h : hasInstallation games g q = true) :
    hasInstallation (process_installation games p d) g q = true := by
  cases hd : deriveName d with
  | none => rwa [process_name_none games p d hd]
  | some n =>
    cases hg : lookupD games n with
    | none =>
      rw [process_fresh games p d n hd hg]
      by_cases hgn : g = n
      · subst hgn
        unfold hasInstallation at h
        rw [hg] at h
        exact absurd h (by simp)
      · unfold hasInstallation at h ⊢
        rwa [lookupD_updateD_ne _ _ _ _ hgn]
    | some gi =>
      rw [process_existing games p d n gi hd hg]
      by_cases hgn : g = n
      · subst hgn
        unfold hasInstallation at h ⊢
        rw [hg] at h
        rw [lookupD_updateD_self]
        by_cases hqp : q = p
        · subst hqp
          simp [lookupD_updateD_self]
        · show (lookupD (updateD gi.installations p (mkInstallation p g d)) q).isSome = true
          rw [lookupD_updateD_ne _ _ _ _ hqp]
          exact h
      · unfold hasInstallation at h ⊢
        rwa [lookupD_updateD_ne _ _ _ _ hgn]

/-- Folding a step that preserves a property preserves it. -/
theorem foldl_preserve {α σ : Type} (P : σ → Prop) (f : σ → α → σ)
    (hf : ∀ s a, P s → P (f s a)) : ∀ (l : List α) (s : σ), P s → P (l.foldl f s) := by
  intro l
  induction l with
  | nil => intro s hs; exact hs
  | cons a rest ih =>
    intro s hs
    exact ih (f s a) (hf s a hs)

/-- A scan cycle is, statewise, the scan cycle of its non-raising adapters. -/
theorem scan_skips_failing : ∀ (apis : List Adapter) (games : Games),
    scan_installations games apis
      = scan_installations games (apis.filter fun a => a.result.isSome) := by
  intro apis
  induction apis with
  | nil => intro games; rfl
  | cons a rest ih =>
    intro games
    cases hr : a.result with
    | none =>
      simp only [scan_installations, List.foldl_cons, hr, List.filter_cons]
      simp only [hr, Option.isSome_none, Bool.false_eq_true, if_false]
      exact ih games
    | some items =>
      simp only [scan_installations, List.foldl_cons, hr, List.filter_cons]
      simp only [hr, Option.isSome_some, if_true]
      simp only [scan_installations, List.foldl_cons, hr] at ih ⊢
      exact ih (items.foldl (fun gs2 it => process_installation gs2 a.platform it) games)

/-- The inner loop of the optimizer of `optimize_storage`, named for reasoning. -/
def pickLoop {α : Type} (c : α → Nat) (l : List α) (acc : Nat × Option α) : Nat × Option α :=
  l.foldl (fun acc x => if c x > acc.1 then (c x, some x) else acc) acc

/-- The running maximum of the counts over a list. -/
def maxRun {α : Type} (c : α → Nat) (l : List α) (m : Nat) : Nat :=
  l.foldl (fun a x => max a (c x)) m

/-- The start value never exceeds the running maximum. -/
theorem le_maxRun {α : Type} (c : α → Nat) : ∀ (l : List α) (m : Nat), m ≤ maxRun c l m := by
  intro l
  induction l with
  | nil => intro m; exact Nat.le_refl m
  | cons x rest ih =>
    intro m
    calc m ≤ max m (c x) := Nat.le_max_left m (c x)
    _ ≤ maxRun c rest (max m (c x)) := ih (max m (c x))

/-- The running maximum is the start value or is attained by some list element. -/
theorem maxRun_attained {α : Type} (c : α → Nat) : ∀ (l : List α) (m : Nat),
    maxRun c l m = m ∨ ∃ x ∈ l, c x = maxRun c l m := by
  intro l
  induction l with
  | nil => intro m; exact Or.inl rfl
  | cons x rest ih =>
    intro m
    have hstep : maxRun c (x :: rest) m = maxRun c rest (max m (c x)) := rfl
    rcases ih (max m (c x)) with h | ⟨y, hy, hcy⟩
    · rw [hstep, h]
      rcases Nat.le_total m (c x) with hle | hle
      · exact Or.inr ⟨x, List.mem_cons_self x rest, (Nat.max_eq_right hle).symm⟩
      · exact Or.inl (Nat.max_eq_left hle)
    · exact Or.inr ⟨y, List.mem_cons_of_mem x hy, by rw [hstep]; exact hcy⟩

/-- Characterization of the optimizer loop: the accumulator ends at the running maximum
of the counts, and the selected element is the first one attaining that maximum when it
exceeds the start value, the initial candidate otherwise. -/
theorem pickLoop_spec {α : Type} (c : α → Nat) : ∀ (l : List α) (m : Nat) (o : Option α),
    pickLoop c l (m, o)
      = (maxRun c l m,
         if m < maxRun c l m then l.find? (fun x => c x == maxRun c l m) else o) := by
  intro l
  induction l with
  | nil =>
    intro m o
    simp [pickLoop, maxRun]
  | cons x rest ih =>
    intro m o
    have hstep : maxRun c (x :: rest) m = maxRun c rest (max m (c x)) := rfl
    have hloop : pickLoop c (x :: rest) (m, o)
        = pickLoop c rest (if c x > m then (c x, some x) else (m, o)) := rfl
    by_cases hx : c x > m
    · have hmax : max m (c x) = c x := Nat.max_eq_right (Nat.le_of_lt hx)
      rw [hloop, if_pos hx, ih (c x) (some x), hstep, hmax]
      have hle : c x ≤ maxRun c rest (c x) := le_maxRun c rest (c x)
      by_cases heq : c x = maxRun c rest (c x)
      · have hlt : ¬ c x < maxRun c rest (c x) := by omega
        rw [if_neg hlt, if_pos (by omega)]
        rw [List.find?_cons_of_pos _ (by simpa using heq)]
      · have hlt : c x < maxRun c rest (c x) := by omega
        rw [if_pos hlt, if_pos (by omega)]
        rw [List.find?_cons_of_neg _ (by simpa using heq)]
    · have hmax : max m (c x) = m := Nat.max_eq_left (by omega)
      rw [hloop, if_neg hx, ih m o, hstep, hmax]
      by_cases hlt : m < maxRun c rest m
      · rw [if_pos hlt, if_pos hlt]
        have hne : ¬ c x = maxRun c rest m := by omega
        rw [List.find?_cons_of_neg _ (by simpa using hne)]
      · rw [if_neg hlt, if_neg hlt]

/-- C6 (amended): `optimize_storage` agrees everywhere with the amended specification
`recommendPlatformSpec`: it fails exactly when the game is unknown or has no bindings;
otherwise it returns the platform with the strictly highest owned-content count, the
first bound platform when no count is positive, and, among several platforms tied at a
positive maximum, the first of the tied platforms in binding enumeration order (which
need not be the first-ever-bound platform). -/
theorem optimize_storage_eq_recommendPlatformSpec (games : Games) (owned : OwnedMap)
    (g : String) : optimize_storage games owned g = recommendPlatformSpec games owned g := by
  cases hg : lookupD games g with
  | none => simp [optimize_storage, recommendPlatformSpec, hg]
  | some gi =>
    unfold optimize_storage recommendPlatformSpec
    simp only [hg, Option.isNone_some, Bool.false_eq_true, if_false]
    have hplat : get_available_platforms games g = gi.platforms.map Prod.fst := by
      simp [get_available_platforms, hg]
    rw [hplat]
    cases hm : gi.platforms.map Prod.fst with
    | nil => simp
    | cons p0 rest =>
      simp only [List.isEmpty_cons, Bool.false_eq_true, if_false]
      show (match (pickLoop (fun p => (get_owned_content owned g p).length) (p0 :: rest)
                    (0, none)).2 with
            | some p => some p
            | none => (p0 :: rest).head?)
          = (if maxRun (fun p => (get_owned_content owned g p).length) (p0 :: rest) 0 = 0
             then some p0
             else (p0 :: rest).find?
               (fun p => (get_owned_content owned g p).length
                 == maxRun (fun p => (get_owned_content owned g p).length) (p0 :: rest) 0))
      rw [pickLoop_spec]
      by_cases hM : maxRun (fun p => (get_owned_content owned g p).length) (p0 :: rest) 0 = 0
      · simp [hM]
      · have hpos : 0 < maxRun (fun p => (get_owned_content owned g p).length) (p0 :: rest) 0 := by
          omega
        rcases maxRun_attained (fun p => (get_owned_content owned g p).length) (p0 :: rest) 0
          with h0 | ⟨x, hx, hcx⟩
        · exact absurd h0 hM
        · cases hfind : (p0 :: rest).find?
              (fun p => (get_owned_content owned g p).length
                == maxRun (fun p => (get_owned_content owned g p).length) (p0 :: rest) 0) with
          | none =>
            rw [List.find?_eq_none] at hfind
            exact absurd (by simpa using hcx) (by simpa using hfind x hx)
          | some p =>
            simp [hpos, hM, hfind]

/-- A Steam sighting of Destiny 2. -/
def dataSteamDestiny : GameData :=
  { name := some "Destiny 2", app_name := none, app_id := "1",
    install_dir := "C:/steam/destiny2", launch_exe := "", version := none,
    size_on_disk := none }

/-- An Epic sighting whose display name differs only by case and a trailing space. -/
def dataEpicDestinyPadded : GameData :=
  { name := some "destiny 2 ", app_name := none, app_id := "x",
    install_dir := "C:/epic/destiny2", launch_exe := "d2.exe", version := none,
    size_on_disk := none }

/-- An Epic sighting with exactly the same display name as the Steam one. -/
def dataEpicDestinyExact : GameData :=
  { name := some "Destiny 2", app_name := none, app_id := "x",
    install_dir := "C:/epic/destiny2", launch_exe := "d2.exe", version := none,
    size_on_disk := none }

/-- The registry after ingesting the two case/whitespace variants of the claim. -/
def registryDestiny : Games :=
  process_installation (process_installation [] Platform.STEAM dataSteamDestiny)
    Platform.EPIC dataEpicDestinyPadded

/-- C1: counterexample.  Ingesting ("steam", "1", "Destiny 2") and then
("epic", "x", "destiny 2 ") yields two distinct registry entries, each with a single
binding: the registry key is the raw display name, not a case-folded, trimmed form. -/
theorem canonicalization_counterexample :
    registryDestiny.length = 2
    ∧ (lookupD registryDestiny "Destiny 2").isSome = true
    ∧ (lookupD registryDestiny "destiny 2 ").isSome = true
    ∧ hasBinding registryDestiny "Destiny 2" Platform.EPIC = false
    ∧ hasBinding registryDestiny "destiny 2 " Platform.STEAM = false := by
  decide

/-- C1 (amended): two sightings merge into a single GameIdentity exactly when their
derived display names are equal as raw strings; for a fresh name sighted on two
different platforms the single entry carries both bindings. -/
theorem merge_requires_exact_name_equality (games : Games) (p1 p2 : Platform)
    (d1 d2 : GameData) (n : String) (h1 : deriveName d1 = some n)
    (h2 : deriveName d2 = some n) (hfresh : lookupD games n = none) (hne : p2 ≠ p1) :
    ∃ gi, lookupD (process_installation (process_installation games p1 d1) p2 d2) n = some gi
      ∧ gi.platforms = [(p1, d1.app_id), (p2, d2.app_id)] := by
  rw [process_fresh games p1 d1 n h1 hfresh]
  have hlook : lookupD
      (updateD games n
        { name := n, platforms := [(p1, d1.app_id)],
          installations := [(p1, mkInstallation p1 n d1)], active_platform := some p1 }) n
      = some
          { name := n, platforms := [(p1, d1.app_id)],
            installations := [(p1, mkInstallation p1 n d1)], active_platform := some p1 } :=
    lookupD_updateD_self _ _ _
  rw [process_existing _ p2 d2 n _ h2 hlook]
  refine ⟨_, lookupD_updateD_self _ _ _, ?_⟩
  simp [updateD, Ne.symm hne]

/-- C1 amended claim at a concrete input: exact-name sightings on Steam and Epic merge
into one entry with the two bindings. -/
theorem merge_requires_exact_name_equality_witness :
    ∃ gi, lookupD (process_installation (process_installation [] Platform.STEAM dataSteamDestiny)
        Platform.EPIC dataEpicDestinyExact) "Destiny 2" = some gi
      ∧ gi.platforms = [(Platform.STEAM, "1"), (Platform.EPIC, "x")] :=
  merge_requires_exact_name_equality [] Platform.STEAM Platform.EPIC dataSteamDestiny
    dataEpicDestinyExact "Destiny 2" (by decide) (by decide) (by decide) (by decide)

/-- C2: counterexample.  A session holding an access token but no expiry timestamp is
not valid under `is_authenticated`, although the claim says it is valid indefinitely. -/
theorem is_authenticated_missing_expiry_counterexample :
    is_authenticated 0
      { platform := "steam", access_token := some "x", refresh_token := none,
        token_expires_at := none, user_id := none } = false
    ∧ (({ platform := "steam", access_token := some "x", refresh_token := none,
          token_expires_at := none, user_id := none } : PlaformAuth)).access_token.isSome
        = true := by
  decide

/-- C2 (amended): the validity predicate is pure and holds iff an access token is
present AND an expiry timestamp is set AND the current time is before it; a session
with no expiry is never reported valid. -/
theorem is_authenticated_iff_token_and_expiry (now : Int) (a : PlaformAuth) :
    is_authenticated now a = true
      ↔ a.access_token.isSome = true ∧ ∃ t, a.token_expires_at = some t ∧ now < t := by
  unfold is_authenticated
  cases hat : a.access_token <;> cases hex : a.token_expires_at <;> simp [hat, hex]

/-- A stored session used in the persistence scenarios. -/
def sessionX : PlaformAuth :=
  { platform := "steam", access_token := some "x", refresh_token := some "r",
    token_expires_at := some 99, user_id := some "u" }

/-- A registered API instance used in the persistence and refresh scenarios. -/
def apiY : ApiInstance :=
  { access_token := some "a", refresh_token := some "b", refresh_result := some true,
    authenticate_result := some true }

/-- A store holding one session and no registered API instance. -/
def storeNoApis : UnifiedAuth :=
  { platform_auths := [("steam", sessionX)], platform_apis := [] }

/-- A store holding one session and one registered API instance. -/
def storeWithApi : UnifiedAuth :=
  { platform_auths := [("steam", sessionX)], platform_apis := [("steam", apiY)] }

/-- C3 (code bug): the save/load round trip loses every session.  `save_auth_data`
iterates `platform_apis`, so with no registered API it writes an empty snapshot even
though a session is held, and loading that snapshot recovers no session; with a
registered API the serialization reads the missing `user_id` attribute and raises, so
nothing is written at all. -/
theorem save_auth_data_loses_sessions :
    save_auth_data storeNoApis = some []
    ∧ load_auth_data [] = []
    ∧ storeNoApis.platform_auths.length = 1
    ∧ save_auth_data storeWithApi = none := by
  decide

/-- C5 (code bug): registering a platform API never creates an AuthSession.  The guard
`platform not in self.platform_apis` is evaluated right after the API was inserted into
`platform_apis`, so it is always false and `platform_auths` is left untouched. -/
theorem register_platform_api_never_creates_session (s : UnifiedAuth) (platform : String)
    (api : ApiInstance) :
    (register_platform_api s platform api).platform_auths = s.platform_auths
    ∧ (register_platform_api s platform api).platform_apis
        = updateD s.platform_apis platform api := by
  simp [register_platform_api, lookupD_updateD_self]

/-- A session with no stored refresh token. -/
def sessionNoRefresh : PlaformAuth :=
  { platform := "steam", access_token := some "old", refresh_token := none,
    token_expires_at := none, user_id := none }

/-- An API instance whose refresh reports success and carries new tokens. -/
def apiRefreshOk : ApiInstance :=
  { access_token := some "new", refresh_token := some "r2", refresh_result := some true,
    authenticate_result := some true }

/-- A store whose session has no refresh token but whose adapter refresh succeeds. -/
def storeNoRefreshToken : UnifiedAuth :=
  { platform_auths := [("steam", sessionNoRefresh)],
    platform_apis := [("steam", apiRefreshOk)] }

/-- C4: counterexample.  With no stored refresh token the refresh call still succeeds,
because the adapter decides the outcome, and the session is overwritten with the
adapter's tokens: the claimed NoRefreshToken failure with an unchanged session does not
occur. -/
theorem refresh_no_token_counterexample :
    (refresh_token_op storeNoRefreshToken "steam").2 = true
    ∧ sessionNoRefresh.refresh_token = none
    ∧ lookupD (refresh_token_op storeNoRefreshToken "steam").1.platform_auths "steam"
        = some { platform := "steam", access_token := some "new",
                 refresh_token := some "r2", token_expires_at := none, user_id := none } := by
  decide

/-- C4 (amended): `refresh` never inspects the stored refresh token.  With an API and a
session registered and no refresh token held, it succeeds iff the adapter reports
success, in which case the session's access and refresh tokens are overwritten with the
adapter's attributes; on adapter failure or exception the state is unchanged and the
call fails. -/
theorem refresh_outcome_decided_by_adapter (s : UnifiedAuth) (platform : String)
    (api : ApiInstance) (auth : PlaformAuth)
    (hapi : lookupD s.platform_apis platform = some api)
    (hauth : lookupD s.platform_auths platform = some auth)
    (_hnorefresh : auth.refresh_token = none) :
    ((refresh_token_op s platform).2 = true ↔ api.refresh_result = some true)
    ∧ (api.refresh_result = some true →
        lookupD (refresh_token_op s platform).1.platform_auths platform
          = some
              { auth with
                access_token := api.access_token
                refresh_token := api.refresh_token })
    ∧ (api.refresh_result ≠ some true → refresh_token_op s platform = (s, false)) := by
  unfold refresh_token_op
  rw [hapi, hauth]
  cases hr : api.refresh_result with
  | none => simp [hr]
  | some b =>
    cases b with
    | true => simp [hr, lookupD_updateD_self]
    | false => simp [hr]

/-- C4 amended claim at a concrete input: the session without a refresh token refreshes
successfully because the adapter reports success. -/
theorem refresh_outcome_decided_by_adapter_witness :
    (refresh_token_op storeNoRefreshToken "steam").2 = true :=
  (refresh_outcome_decided_by_adapter storeNoRefreshToken "steam" apiRefreshOk
      sessionNoRefresh (by decide) (by decide) (by decide)).1.mpr (by decide)

/-- C10: `get_access_token` can never return a token: the sessions dictionary is
invoked as a function, which raises TypeError on every input, before any token could be
read. -/
theorem get_access_token_always_fails (now : Int) (s : UnifiedAuth) (platform : String) :
    get_access_token now s platform
      = Except.error "TypeError: dict object is not callable" := rfl

/-- A sighting of game "G" on Steam. -/
def dataG1 : GameData :=
  { name := some "G", app_name := none, app_id := "a1", install_dir := "/g1",
    launch_exe := "", version := none, size_on_disk := none }

/-- A sighting of game "G" on Epic. -/
def dataG2 : GameData :=
  { name := some "G", app_name := none, app_id := "a2", install_dir := "/g2",
    launch_exe := "e.exe", version := none, size_on_disk := none }

/-- A sighting of game "G" on GOG. -/
def dataG3 : GameData :=
  { name := some "G", app_name := none, app_id := "a3", install_dir := "/g3",
    launch_exe := "", version := none, size_on_disk := none }

/-- Registry with game "G" bound, in order, to Steam, Epic and GOG. -/
def gamesG : Games :=
  process_installation
    (process_installation (process_installation [] Platform.STEAM dataG1) Platform.EPIC dataG2)
    Platform.GOG dataG3

/-- Ledger with owned-content counts 1 (Steam), 3 (Epic) and 3 (GOG) for game "G". -/
def ownedG : OwnedMap :=
  register_owned_content
    (register_owned_content (register_owned_content [] "G" Platform.STEAM ["c1"])
      "G" Platform.EPIC ["c2", "c3", "c4"])
    "G" Platform.GOG ["c5", "c6", "c7"]

/-- C6: counterexample to the claimed tie-break.  Game "G" was first sighted on Steam,
and Epic and GOG tie at the maximal count 3, yet the optimizer returns Epic — the first
platform among the tied ones — not Steam, the first platform in the binding
enumeration. -/
theorem optimize_storage_tiebreak_counterexample :
    optimize_storage gamesG ownedG "G" = some Platform.EPIC
    ∧ get_available_platforms gamesG "G" = [Platform.STEAM, Platform.EPIC, Platform.GOG]
    ∧ (get_owned_content ownedG "G" Platform.STEAM).length = 1
    ∧ (get_owned_content ownedG "G" Platform.EPIC).length = 3
    ∧ (get_owned_content ownedG "G" Platform.GOG).length = 3 := by
  decide

/-- Ingesting the same item twice is the same as ingesting it once. -/
theorem process_idem (games : Games) (p : Platform) (d : GameData) :
    process_installation (process_installation games p d) p d
      = process_installation games p d := by
  cases hd : deriveName d with
  | none => rw [process_name_none games p d hd, process_name_none games p d hd]
  | some n =>
    cases hg : lookupD games n with
    | none =>
      rw [process_fresh games p d n hd hg]
      have h2 := lookupD_updateD_self games n
        { name := n, platforms := [(p, d.app_id)],
          installations := [(p, mkInstallation p n d)], active_platform := some p }
      rw [process_existing _ p d n _ hd h2, updateD_updateD]
      simp [updateD]
    | some gi =>
      rw [process_existing games p d n gi hd hg]
      have h2 := lookupD_updateD_self games n
        { gi with
          platforms := updateD gi.platforms p d.app_id
          installations := updateD gi.installations p (mkInstallation p n d)
          active_platform :=
            match gi.active_platform with
            | none => some p
            | some q => some q }
      rw [process_existing _ p d n _ hd h2, updateD_updateD]
      cases hap : gi.active_platform <;> simp [hap, updateD_updateD]

/-- C7: ingest is idempotent and bindings grow monotonically.  Ingesting the same
(platform, game, installation) tuple twice equals ingesting it once; no existing
binding is ever removed by an ingest; a fresh name yields exactly one entry with one
binding and one installation; and after any ingest the processed game holds the freshly
built installation for that platform (wholesale replacement). -/
theorem ingest_idempotent_and_monotone (games : Games) (p : Platform) (d : GameData) :
    process_installation (process_installation games p d) p d
        = process_installation games p d
    ∧ (∀ g q, hasBinding games g q = true →
        hasBinding (process_installation games p d) g q = true)
    ∧ (∀ n, deriveName d = some n → lookupD games n = none →
        lookupD (process_installation games p d) n
          = some
              { name := n, platforms := [(p, d.app_id)],
                installations := [(p, mkInstallation p n d)], active_platform := some p })
    ∧ (∀ n gi, deriveName d = some n →
        lookupD (process_installation games p d) n = some gi →
        lookupD gi.installations p = some (mkInstallation p n d)) := by
  refine ⟨process_idem games p d,
    fun g q h => process_preserves_binding games p d g q h, ?_, ?_⟩
  · intro n hd hg
    rw [process_fresh games p d n hd hg, lookupD_updateD_self]
  · intro n gi hd hres
    cases hg : lookupD games n with
    | none =>
      rw [process_fresh games p d n hd hg, lookupD_updateD_self] at hres
      cases hres
      simp [lookupD]
    | some gi0 =>
      rw [process_existing games p d n gi0 hd hg, lookupD_updateD_self] at hres
      cases hres
      exact lookupD_updateD_self _ _ _

/-- C7 at a concrete input: one Steam sighting of a fresh name creates exactly one
entry with one binding and one installation. -/
theorem ingest_idempotent_and_monotone_witness :
    lookupD (process_installation [] Platform.STEAM dataSteamDestiny) "Destiny 2"
      = some
          { name := "Destiny 2", platforms := [(Platform.STEAM, "1")],
            installations :=
              [(Platform.STEAM, mkInstallation Platform.STEAM "Destiny 2" dataSteamDestiny)],
            active_platform := some Platform.STEAM } :=
  (ingest_idempotent_and_monotone [] Platform.STEAM dataSteamDestiny).2.2.1 "Destiny 2"
    (by decide) (by decide)

/-- C8: active-platform selection is first-writer-wins and validated.  Ingesting a
fresh game from platform A and then from platform B leaves the active platform at A; a
subsequent `set_active_platform` to B succeeds and moves it to B; and
`set_active_platform` fails without changing any state when the game is unknown or the
platform is not among its bindings. -/
theorem active_platform_first_writer_wins (games : Games) (pA pB : Platform)
    (dA dB : GameData) (n : String) (hA : deriveName dA = some n)
    (hB : deriveName dB = some n) (hfresh : lookupD games n = none) (_hne : pB ≠ pA) :
    (∃ gi, lookupD (process_installation (process_installation games pA dA) pB dB) n
        = some gi ∧ gi.active_platform = some pA)
    ∧ ((set_active_platform
          (process_installation (process_installation games pA dA) pB dB) n pB).2 = true
       ∧ ∃ gi, lookupD (set_active_platform
            (process_installation (process_installation games pA dA) pB dB) n pB).1 n
          = some gi ∧ gi.active_platform = some pB)
    ∧ (∀ (gs : Games) (g : String) (p2 : Platform), lookupD gs g = none →
        set_active_platform gs g p2 = (gs, false))
    ∧ (∀ (gs : Games) (g : String) (p2 : Platform) (gi : GameInfo),
        lookupD gs g = some gi → lookupD gi.platforms p2 = none →
        set_active_platform gs g p2 = (gs, false)) := by
  rw [process_fresh games pA dA n hA hfresh]
  have hlookA := lookupD_updateD_self games n
    { name := n, platforms := [(pA, dA.app_id)],
      installations := [(pA, mkInstallation pA n dA)], active_platform := some pA }
  rw [process_existing _ pB dB n _ hB hlookA]
  have hlookB := lookupD_updateD_self
    (updateD games n
      { name := n, platforms := [(pA, dA.app_id)],
        installations := [(pA, mkInstallation pA n dA)], active_platform := some pA })
    n
    { name := n, platforms := updateD [(pA, dA.app_id)] pB dB.app_id,
      installations :=
        updateD [(pA, mkInstallation pA n dA)] pB (mkInstallation pB n dB),
      active_platform := some pA }
  refine ⟨⟨_, hlookB, rfl⟩, ?_, ?_, ?_⟩
  · have hbind : lookupD (updateD [(pA, dA.app_id)] pB dB.app_id) pB = some dB.app_id :=
      lookupD_updateD_self _ _ _
    unfold set_active_platform
    rw [hlookB]
    simp only [hbind, Option.isSome_some, if_true]
    exact ⟨trivial, _, lookupD_updateD_self _ _ _, rfl⟩
  · intro gs g p2 h
    simp [set_active_platform, h]
  · intro gs g p2 gi h h2
    simp [set_active_platform, h, h2]

/-- C8 at a concrete input: Steam then Epic sightings of "Destiny 2" leave Steam
active, and a later switch to Epic succeeds. -/
theorem active_platform_first_writer_wins_witness :
    ∃ gi, lookupD (process_installation
        (process_installation [] Platform.STEAM dataSteamDestiny)
        Platform.EPIC dataEpicDestinyExact) "Destiny 2"
      = some gi ∧ gi.active_platform = some Platform.STEAM :=
  (active_platform_first_writer_wins [] Platform.STEAM Platform.EPIC dataSteamDestiny
    dataEpicDestinyExact "Destiny 2" (by decide) (by decide) (by decide) (by decide)).1

/-- C9: scan cycles isolate adapter failures.  A scan equals, statewise, the scan of
its non-raising adapters (so a raising adapter contributes nothing and every other
adapter is still processed), and a scan never removes a game, a binding or an
installation that was present before. -/
theorem scan_failure_isolation (games : Games) (apis : List Adapter) :
    scan_installations games apis
        = scan_installations games (apis.filter fun a => a.result.isSome)
    ∧ (∀ g, hasGame games g = true → hasGame (scan_installations games apis) g = true)
    ∧ (∀ g q, hasBinding games g q = true →
        hasBinding (scan_installations games apis) g q = true)
    ∧ (∀ g q, hasInstallation games g q = true →
        hasInstallation (scan_installations games apis) g q = true) := by
  refine ⟨scan_skips_failing apis games, ?_, ?_, ?_⟩
  · intro g h
    refine foldl_preserve (fun gs => hasGame gs g = true) _ ?_ apis games h
    intro gs a hP
    cases hr : a.result with
    | none => simpa [hr] using hP
    | some items =>
      simp only [hr]
      exact foldl_preserve (fun gs2 => hasGame gs2 g = true) _
        (fun gs2 it hp => process_preserves_game gs2 a.platform it g hp) items gs hP
  · intro g q h
    refine foldl_preserve (fun gs => hasBinding gs g q = true) _ ?_ apis games h
    intro gs a hP
    cases hr : a.result with
    | none => simpa [hr] using hP
    | some items =>
      simp only [hr]
      exact foldl_preserve (fun gs2 => hasBinding gs2 g q = true) _
        (fun gs2 it hp => process_preserves_binding gs2 a.platform it g q hp) items gs hP
  · intro g q h
    refine foldl_preserve (fun gs => hasInstallation gs g q = true) _ ?_ apis games h
    intro gs a hP
    cases hr : a.result with
    | none => simpa [hr] using hP
    | some items =>
      simp only [hr]
      exact foldl_preserve (fun gs2 => hasInstallation gs2 g q = true) _
        (fun gs2 it hp => process_preserves_installation gs2 a.platform it g q hp) items gs hP

/-- C9 at a concrete input: a raising Steam adapter next to a succeeding Epic adapter
leaves a previously known Steam binding in place. -/
theorem scan_failure_isolation_witness :
    hasBinding
      (scan_installations (process_installation [] Platform.STEAM dataSteamDestiny)
        [{ platform := Platform.STEAM, result := none },
         { platform := Platform.EPIC, result := some [dataG2] }])
      "Destiny 2" Platform.STEAM = true :=
  (scan_failure_isolation (process_installation [] Platform.STEAM dataSteamDestiny)
    [{ platform := Platform.STEAM, result := none },
     { platform := Platform.EPIC, result := some [dataG2] }]).2.2.1
    "Destiny 2" Platform.STEAM (by decide)
